import Mathlib

/-!
# Verification of the HalalCrave incremental city hydration pipeline

Shallow embedding of `backend/jobs/hydrate.js` (the "INCREMENTAL CITY
HYDRATION v2" script) together with the durable tables it touches
(`backend/schema.sql`, `backend/schema-update.sql`, `backend/schema-fix.sql`).

Conventions of the embedding:
* JS numbers used for coordinates are modelled as rationals (`ℚ`).
* `NOW()` is modelled by a logical clock (`Nat`) threaded through the run.
* UUID primary keys (`gen_random_uuid()`) are modelled by a fresh-`Nat`
  counter stored next to the tables.
* Network calls are modelled by an `Env` record holding the responses of the
  external places directory and the points where the database store fails;
  a `fetch`/JSON failure is an explicit error value, mirroring the
  `try/catch` blocks at each call site.
-/

namespace HalalCrave

/-! ## JS string primitives used by the script -/

/-- `pat` occurs as a prefix of `s` (character lists). -/
def prefixAt : List Char → List Char → Bool
  | [], _ => true
  | _ :: _, [] => false
  | p :: ps, c :: cs => p == c && prefixAt ps cs

/-- `s` contains `pat` as a contiguous substring (character lists). -/
def hasSubstring : List Char → List Char → Bool
  | [], pat => prefixAt pat []
  | c :: cs, pat => prefixAt pat (c :: cs) || hasSubstring cs pat

/-- JS `String.prototype.includes`: substring test. -/
def strIncludes (s pat : String) : Bool :=
  hasSubstring s.toList pat.toList

/-- JS `String.prototype.toLowerCase` (the strings involved are ASCII):
lower-case every character of the string. -/
def lowerStr (s : String) : String :=
  ⟨s.data.map Char.toLower⟩

/-! ## Grid generator (`generateGridPoints`, hydrate.js lines 158–173) -/

/-- A city's rectangular bounds, as in the `CITY_COORDS` table. -/
structure Bounds where
  north : ℚ
  south : ℚ
  east : ℚ
  west : ℚ
deriving DecidableEq

structure GridPoint where
  lat : ℚ
  lng : ℚ
deriving DecidableEq

/-- `generateGridPoints(bounds, gridSize)`: nested loops
`for i in 0..gridSize { for j in 0..gridSize { push }}` with the half-cell
offset `+ latStep / 2` / `+ lngStep / 2`.  (The JS default `gridSize = 5`
is never used: the one call site passes `4`.) -/
def generateGridPoints (bounds : Bounds) (gridSize : Nat) : List GridPoint :=
  let latStep : ℚ := (bounds.north - bounds.south) / gridSize
  let lngStep : ℚ := (bounds.east - bounds.west) / gridSize
  (List.range (gridSize + 1)).flatMap (fun (i : Nat) =>
    (List.range (gridSize + 1)).map (fun (j : Nat) =>
      { lat := bounds.south + (i : ℚ) * latStep + latStep / 2
        lng := bounds.west + (j : ℚ) * lngStep + lngStep / 2 }))

/-! ## Discovery ledger (`seen_places`, schema-update.sql lines 6–12) -/

/-- One row of `seen_places` (minus the `place_id` key column). -/
structure SeenRow where
  city : String
  name : String
  is_halal : Bool
  checked_at : Nat
deriving DecidableEq

/-- The `seen_places` table: rows keyed by `place_id`. -/
abbrev SeenTable := List (String × SeenRow)

/-- `isPlaceSeen`: `SELECT 1 FROM seen_places WHERE place_id = $1`,
then `rows.length > 0`. -/
def isPlaceSeen (t : SeenTable) (placeId : String) : Bool :=
  t.any (fun e => e.1 == placeId)

/-- `markPlaceSeen`: `INSERT INTO seen_places … ON CONFLICT (place_id) DO
UPDATE SET checked_at = NOW()`.  On conflict only `checked_at` is touched;
`city`, `name` and `is_halal` keep their stored values. -/
def markPlaceSeen (t : SeenTable) (placeId city name : String)
    (isHalal : Bool) (now : Nat) : SeenTable :=
  if isPlaceSeen t placeId then
    t.map (fun e =>
      match e.1 == placeId with
      | true => (e.1, { e.2 with checked_at := now })
      | false => e)
  else
    t ++ [(placeId, ⟨city, name, isHalal, now⟩)]

/-! ## Search query lists (hydrate.js lines 83–140) -/

def EXPLICIT_HALAL_QUERIES : List String :=
  ["halal restaurant", "halal food", "halal meat", "halal chicken", "zabiha"]

def ALWAYS_HALAL_QUERIES : List String :=
  ["pakistani restaurant", "pakistani food", "afghan restaurant",
   "afghan food", "somali restaurant", "somali food", "yemeni restaurant",
   "yemeni food", "bangladeshi restaurant", "sudanese restaurant",
   "syrian restaurant", "palestinian restaurant", "egyptian restaurant",
   "moroccan restaurant"]

def LIKELY_HALAL_QUERIES : List String :=
  ["middle eastern restaurant", "middle eastern food", "lebanese restaurant",
   "lebanese food", "turkish restaurant", "turkish food", "indian restaurant",
   "mediterranean restaurant", "shawarma", "kebab", "biryani", "falafel",
   "persian restaurant", "arab restaurant"]

def CHECK_REVIEWS_QUERIES : List String :=
  ["fried chicken", "chicken wings", "korean fried chicken",
   "burger restaurant", "pizza restaurant", "bbq restaurant", "steakhouse",
   "caribbean restaurant", "jamaican restaurant", "african restaurant"]

/-! ## Review scan and cuisine detection (hydrate.js lines 258–299) -/

def halalKeywords : List String := ["halal", "zabiha", "zabihah"]

structure Review where
  text : Option String
deriving DecidableEq

/-- Inner loop of `checkReviewsForHalal`: first keyword contained in the
lower-cased review text. -/
def findKeyword (text : String) : Option String :=
  halalKeywords.find? (fun keyword => strIncludes text keyword)

/-- `checkReviewsForHalal(reviews)`: walks the reviews in order, lower-cases
`review.text || ''`, and returns the first matching keyword
(`{found: true, keyword}` becomes `some keyword`, `{found: false}` becomes
`none`). -/
def checkReviewsForHalal (reviews : List Review) : Option String :=
  reviews.findSome? (fun review =>
    findKeyword (lowerStr (review.text.getD "")))

/-- `detectCuisine(name)`: ordered if/else chain over name substrings. -/
def detectCuisine (name : String) : String :=
  let n := lowerStr name
  if strIncludes n "pakistani" || strIncludes n "karahi" || strIncludes n "nihari" then "Pakistani"
  else if strIncludes n "indian" || strIncludes n "biryani" || strIncludes n "tandoori" then "Indian"
  else if strIncludes n "bangladeshi" || strIncludes n "bengali" then "Bangladeshi"
  else if strIncludes n "afghan" || strIncludes n "kabul" then "Afghan"
  else if strIncludes n "somali" then "Somali"
  else if strIncludes n "yemeni" || strIncludes n "mandi" then "Yemeni"
  else if strIncludes n "korean" then "Korean"
  else if strIncludes n "chinese" then "Chinese"
  else if strIncludes n "thai" then "Thai"
  else if strIncludes n "turkish" || strIncludes n "kebab" || strIncludes n "doner" then "Turkish"
  else if strIncludes n "lebanese" || strIncludes n "shawarma" then "Lebanese"
  else if strIncludes n "middle eastern" || strIncludes n "arab" then "Middle Eastern"
  else if strIncludes n "mediterranean" || strIncludes n "falafel" then "Mediterranean"
  else if strIncludes n "moroccan" then "Moroccan"
  else if strIncludes n "egyptian" then "Egyptian"
  else if strIncludes n "persian" || strIncludes n "iranian" then "Persian"
  else if strIncludes n "syrian" then "Syrian"
  else if strIncludes n "palestinian" then "Palestinian"
  else if strIncludes n "pizza" then "Pizza"
  else if strIncludes n "burger" then "Burgers"
  else if strIncludes n "chicken" || strIncludes n "wing" then "Fried Chicken"
  else if strIncludes n "caribbean" || strIncludes n "jamaican" then "Caribbean"
  else if strIncludes n "african" then "African"
  else "Restaurant"

/-- `getPhotoReference(photos)`: `photos[0].photo_reference`, or `null` when
the list is missing or empty. -/
def getPhotoReference (photos : Option (List String)) : Option String :=
  match photos with
  | none => none
  | some [] => none
  | some (p :: _) => some p

/-- `buildPhotoUrl(photoReference)`.  The API key comes from the process
environment and is abstracted away from the URL text. -/
def buildPhotoUrl (photoReference : Option String) : Option String :=
  photoReference.map (fun r =>
    "https://maps.googleapis.com/maps/api/place/photo?maxwidth=400&photoreference=" ++ r ++ "&key=")

/-! ## Durable restaurant store (schema.sql, schema-update.sql, schema-fix.sql)

`restaurants` has a generated UUID primary key and, after `schema-fix.sql`,
the check constraint `halal_status IN ('verified','unverified','community',
'unknown')`.  Its only unique constraint is the primary key.
`google_metadata` has `place_id VARCHAR(255) UNIQUE` and
`UNIQUE(restaurant_id)`.  UUIDs are modelled by a fresh-`Nat` counter. -/

structure RestaurantRow where
  rid : Nat
  name : String
  address : String
  city : String
  lat : ℚ
  lng : ℚ
  cuisine : String
  halal_status : String
  halal_confidence_score : Nat
  source : String
  image : Option String
  discovered_via : String
deriving DecidableEq

structure MetadataRow where
  restaurant_id : Nat
  place_id : String
  rating : Option ℚ
  review_count : Nat
  phone : Option String
  website : Option String
  hours : Option (List String)
deriving DecidableEq

structure CityRow where
  city : String
  country : String
  lat : ℚ
  lng : ℚ
  hydrated_at : Nat
  restaurant_count : Nat
  source : String
deriving DecidableEq

structure Store where
  restaurants : List RestaurantRow
  metadata : List MetadataRow
  cities : List CityRow
  nextId : Nat
deriving DecidableEq

def emptyStore : Store := ⟨[], [], [], 0⟩

/-- The `halal_status` check constraint after `schema-fix.sql`. -/
def allowedStatuses : List String :=
  ["verified", "unverified", "community", "unknown"]

/-- The detail payload (`data.result` of the place-details endpoint) with the
fields requested by `getPlaceDetails` and consumed by `saveRestaurant` /
`checkReviewsForHalal`.  `photos` holds the `photo_reference` strings. -/
structure PlaceDetails where
  place_id : String
  name : String
  formatted_address : String
  lat : ℚ
  lng : ℚ
  rating : Option ℚ
  user_ratings_total : Option Nat
  reviews : Option (List Review)
  photos : Option (List String)
  formatted_phone_number : Option String
  website : Option String
  opening_hours_weekday_text : Option (List String)
deriving DecidableEq

/-- Where an injected store failure (network/database error) hits
`saveRestaurant`: at the `restaurants` insert or at the `google_metadata`
insert.  The two queries are not wrapped in a transaction. -/
inductive StoreErrAt
  | restaurantsInsert
  | metadataInsert
deriving DecidableEq

/-- `saveRestaurant(details, city, halalStatus, discoveredVia, confidence)`.

* `INSERT INTO restaurants … ON CONFLICT DO NOTHING RETURNING id`: the only
  unique constraint on `restaurants` is the UUID primary key, so the blanket
  `ON CONFLICT DO NOTHING` can only arbitrate on a collision of the freshly
  generated id; a violation of the `halal_status` check constraint raises and
  is swallowed by the surrounding `catch`, which returns `false`.
* when a row came back: `INSERT INTO google_metadata … ON CONFLICT (place_id)
  DO NOTHING`, then return `true`; a `place_id` conflict is silently ignored
  (the function still returns `true`), a `restaurant_id` uniqueness violation
  would raise and be caught (`false`).
* any caught error returns `false` (`catch` at hydrate.js lines 356–362). -/
def saveRestaurant (st : Store) (err : Option StoreErrAt)
    (details : PlaceDetails) (city halalStatus discoveredVia : String)
    (confidence : Nat) : Store × Bool :=
  if err == some StoreErrAt.restaurantsInsert then (st, false)
  else if !(allowedStatuses.contains halalStatus) then (st, false)
  else
    let newId := st.nextId
    if st.restaurants.any (fun r => r.rid == newId) then
      -- `ON CONFLICT DO NOTHING` fired: no row returned, function returns false
      (st, false)
    else
      let row : RestaurantRow :=
        { rid := newId
          name := details.name
          address := details.formatted_address
          city := city
          lat := details.lat
          lng := details.lng
          cuisine := detectCuisine details.name
          halal_status := halalStatus
          halal_confidence_score := confidence
          source := "google"
          image := buildPhotoUrl (getPhotoReference details.photos)
          discovered_via := discoveredVia }
      let st1 : Store :=
        { st with restaurants := st.restaurants ++ [row], nextId := st.nextId + 1 }
      if err == some StoreErrAt.metadataInsert then (st1, false)
      else if st1.metadata.any (fun m => m.place_id == details.place_id) then
        (st1, true)
      else if st1.metadata.any (fun m => m.restaurant_id == newId) then
        (st1, false)
      else
        let meta : MetadataRow :=
          { restaurant_id := newId
            place_id := details.place_id
            rating := details.rating
            review_count := details.user_ratings_total.getD 0
            phone := details.formatted_phone_number
            website := details.website
            hours := details.opening_hours_weekday_text }
        ({ st1 with metadata := st1.metadata ++ [meta] }, true)

/-! ## External environment -/

/-- A search-result candidate; the hydration loops consume only `place_id`. -/
structure Candidate where
  place_id : String
deriving DecidableEq

/-- Response to one text-search page request: either the `fetch`/JSON call
failed (the `catch` yields `{results: [], nextPageToken: null}`), or a page
of results together with whether a `next_page_token` was present. -/
inductive TextResp
  | fetchError
  | page (results : List Candidate) (hasNext : Bool)
deriving DecidableEq

/-- The deterministic external world of one run: the successive page
responses of every text-search chain, the proximity-search responses
(`none` = fetch error), the detail payloads (`none` = fetch error or missing
`data.result`), and the injected store failures. -/
structure Env where
  textPages : String → String → List TextResp
  nearby : ℚ → ℚ → String → Nat → Option (List Candidate)
  details : String → Option PlaceDetails
  storeErr : String → Option StoreErrAt

/-- The detail endpoint answers with the record of the requested id. -/
def EnvConsistent (env : Env) : Prop :=
  ∀ pid d, env.details pid = some d → d.place_id = pid

/-! ## Run state -/

structure Stats where
  textSearchCalls : Nat
  nearbySearchCalls : Nat
  placeDetailsCalls : Nat
deriving DecidableEq

def Stats.searchCost (s : Stats) : ℚ :=
  ((s.textSearchCalls : ℚ) + (s.nearbySearchCalls : ℚ)) * (32 / 1000)

def Stats.detailsCost (s : Stats) : ℚ :=
  (s.placeDetailsCalls : ℚ) * (17 / 1000)

def Stats.totalCost (s : Stats) : ℚ :=
  s.searchCost + s.detailsCost

/-- Observable events of a run, in order. -/
inductive Event
  | textCall (query city : String)
  | nearbyCall (lat lng : ℚ) (keyword : String)
  | detailCall (placeId : String)
  | saveCall (placeId status channel : String) (confidence : Nat)
      (dup created : Bool)
  | markSeen (placeId : String) (isHalal : Bool)
  | skip (placeId : String)
deriving DecidableEq

/-- State threaded through one `hydrateCity` invocation.  The JS keeps the
per-query local counters `newCount`/`skipCount` and folds them into
`totalSaved`/`totalSkipped` after each query loop; nothing reads the totals
inside a loop, so the embedding adds each increment directly to the totals
at the candidate that produces it (same final values). -/
structure RunCtx where
  seen : SeenTable
  store : Store
  stats : Stats
  trace : List Event
  clock : Nat
  totalSaved : Nat
  totalSkipped : Nat
  verifiedCount : Nat
  unverifiedCount : Nat
deriving DecidableEq

def initCtx (seen0 : SeenTable) (store0 : Store) : RunCtx :=
  ⟨seen0, store0, ⟨0, 0, 0⟩, [], 0, 0, 0, 0, 0⟩

/-! ## Phases (hydrate.js lines 400–566) -/

inductive Phase
  | explicitText
  | explicitGrid
  | alwaysCuisine
  | likelyCuisine
  | reviewScan
deriving DecidableEq

/-- `halalStatus` argument of the phase's `saveRestaurant` call. -/
def Phase.status : Phase → String
  | .explicitText => "verified"
  | .explicitGrid => "verified"
  | .alwaysCuisine => "verified"
  | .likelyCuisine => "unverified"
  | .reviewScan => "unverified"

/-- `discoveredVia` argument of the phase's `saveRestaurant` call. -/
def Phase.channel : Phase → String
  | .explicitText => "explicit"
  | .explicitGrid => "explicit-grid"
  | .alwaysCuisine => "cuisine"
  | .likelyCuisine => "cuisine-likely"
  | .reviewScan => "review"

/-- `confidence` argument of the phase's `saveRestaurant` call. -/
def Phase.confidence : Phase → Nat
  | .explicitText => 95
  | .explicitGrid => 90
  | .alwaysCuisine => 85
  | .likelyCuisine => 75
  | .reviewScan => 70

/-- Which result counter the phase bumps when a save succeeds. -/
def Phase.countsVerified : Phase → Bool
  | .explicitText => true
  | .explicitGrid => true
  | .alwaysCuisine => true
  | .likelyCuisine => false
  | .reviewScan => false

/-- The review-scan loop adds only `skipCount` to `totalSkipped`; the other
loops add `newCount` to `totalSaved` as well. -/
def Phase.addsToTotalSaved : Phase → Bool
  | .reviewScan => false
  | _ => true

/-- Successful save: bump the phase's verified/unverified counter and, in
the non-review phases, `totalSaved`. -/
def bumpSaved (ph : Phase) (saved : Bool) (c : RunCtx) : RunCtx :=
  if saved then
    { c with
      verifiedCount := c.verifiedCount + (if ph.countsVerified then 1 else 0)
      unverifiedCount :=
        c.unverifiedCount + (if ph.countsVerified then 0 else 1)
      totalSaved := c.totalSaved + (if ph.addsToTotalSaved then 1 else 0) }
  else c

/-- Save the restaurant and mark the place seen, as done back-to-back in
every phase body for a classified candidate. -/
def saveAndMark (env : Env) (city : String) (ph : Phase) (place : Candidate)
    (details : PlaceDetails) (isHalal : Bool) (c : RunCtx) : RunCtx :=
  let dup := c.store.metadata.any (fun m => m.place_id == details.place_id)
  let res := saveRestaurant c.store (env.storeErr details.place_id) details
    city ph.status ph.channel ph.confidence
  let c1 : RunCtx :=
    { c with
      store := res.1
      seen := markPlaceSeen c.seen place.place_id city details.name isHalal
        c.clock
      clock := c.clock + 1
      trace := c.trace ++
        [Event.saveCall details.place_id ph.status ph.channel ph.confidence
          dup res.2,
         Event.markSeen place.place_id isHalal] }
  bumpSaved ph res.2 c1

/-- The `getPlaceDetails` call effect: `placeDetailsCalls++` happens whether
or not the fetch succeeds. -/
def detailStep (place : Candidate) (c : RunCtx) : RunCtx :=
  { c with
    stats :=
      { c.stats with placeDetailsCalls := c.stats.placeDetailsCalls + 1 }
    trace := c.trace ++ [Event.detailCall place.place_id] }

/-- One candidate of a phase result list (the body of the
`for (const place of results)` loops).

* seen → `skipCount++; continue`;
* unseen → `getPlaceDetails` (counted even when it fails);
* `!details` → `continue` (neither saved nor marked seen);
* review-scan phase: keyword found → save + mark `is_halal = true`,
  otherwise mark `is_halal = false` without saving;
* other phases: save with the phase's status/channel/confidence and mark
  `is_halal = true` whether or not the save reported a new row. -/
def processPlace (env : Env) (city : String) (ph : Phase) (place : Candidate)
    (c : RunCtx) : RunCtx :=
  if isPlaceSeen c.seen place.place_id then
    { c with
      trace := c.trace ++ [Event.skip place.place_id]
      totalSkipped := c.totalSkipped + 1 }
  else
    let c1 : RunCtx := detailStep place c
    match env.details place.place_id with
    | none => c1
    | some details =>
      match ph with
      | .reviewScan =>
        match checkReviewsForHalal (details.reviews.getD []) with
        | some _ => saveAndMark env city .reviewScan place details true c1
        | none =>
          { c1 with
            seen := markPlaceSeen c1.seen place.place_id city details.name
              false c1.clock
            clock := c1.clock + 1
            trace := c1.trace ++ [Event.markSeen place.place_id false] }
      | ph => saveAndMark env city ph place details true c1

/-- Pagination of `getAllSearchResults`: consume the response chain until a
page without `next_page_token` (or a fetch error, whose catch returns an
empty page and a null token).  Also yields the number of page requests
issued (each one bumps `textSearchCalls`). -/
def collectPages : List TextResp → List Candidate × Nat
  | [] => ([], 1)
  | TextResp.fetchError :: _ => ([], 1)
  | TextResp.page results false :: _ => (results, 1)
  | TextResp.page results true :: rest =>
    let r := collectPages rest
    (results ++ r.1, r.2 + 1)

/-- `getAllSearchResults(query, city)` plus its effect on the call stats. -/
def getAllSearchResults (env : Env) (query city : String) (c : RunCtx) :
    List Candidate × RunCtx :=
  let r := collectPages (env.textPages query city)
  (r.1,
   { c with
     stats := { c.stats with textSearchCalls := c.stats.textSearchCalls + r.2 }
     trace := c.trace ++ List.replicate r.2 (Event.textCall query city) })

/-- `nearbySearch(lat, lng, keyword, radius)`: bumps
`nearbySearchCalls`, returns `data.results || []`, `[]` on fetch error. -/
def runNearby (env : Env) (lat lng : ℚ) (keyword : String) (radius : Nat)
    (c : RunCtx) : List Candidate × RunCtx :=
  ((env.nearby lat lng keyword radius).getD [],
   { c with
     stats :=
       { c.stats with nearbySearchCalls := c.stats.nearbySearchCalls + 1 }
     trace := c.trace ++ [Event.nearbyCall lat lng keyword] })

/-- One query of a text-search phase: paginated search, then the candidate
loop. -/
def runTextQuery (env : Env) (city : String) (ph : Phase) (c : RunCtx)
    (query : String) : RunCtx :=
  let r := getAllSearchResults env query city c
  r.1.foldl (fun acc place => processPlace env city ph place acc) r.2

/-- A whole text-search phase: its query list to exhaustion. -/
def runPhaseQueries (env : Env) (city : String) (ph : Phase)
    (queries : List String) (c : RunCtx) : RunCtx :=
  queries.foldl (runTextQuery env city ph) c

/-- Phase 1B: the 5×5 grid sweep with keyword `halal`, radius 4000. -/
def runGridPhase (env : Env) (city : String) (bounds : Bounds) (c : RunCtx) :
    RunCtx :=
  (generateGridPoints bounds 4).foldl
    (fun acc point =>
      let r := runNearby env point.lat point.lng "halal" 4000 acc
      r.1.foldl (fun a place => processPlace env city .explicitGrid place a)
        r.2)
    c

/-! ## City registry and finalize step -/

structure CityData where
  lat : ℚ
  lng : ℚ
  country : String
  bounds : Bounds
deriving DecidableEq

/-- `CITY_COORDS` (hydrate.js lines 26–76). -/
def CITY_COORDS : List (String × CityData) :=
  [("calgary", ⟨51.0447, -114.0719, "Canada", ⟨51.18, 50.84, -113.86, -114.27⟩⟩),
   ("toronto", ⟨43.6532, -79.3832, "Canada", ⟨43.85, 43.58, -79.12, -79.64⟩⟩),
   ("vancouver", ⟨49.2827, -123.1207, "Canada", ⟨49.35, 49.20, -123.02, -123.27⟩⟩),
   ("edmonton", ⟨53.5461, -113.4938, "Canada", ⟨53.67, 53.40, -113.27, -113.71⟩⟩),
   ("montreal", ⟨45.5017, -73.5673, "Canada", ⟨45.70, 45.40, -73.47, -73.98⟩⟩),
   ("ottawa", ⟨45.4215, -75.6972, "Canada", ⟨45.54, 45.25, -75.50, -75.92⟩⟩),
   ("mississauga", ⟨43.5890, -79.6441, "Canada", ⟨43.65, 43.52, -79.54, -79.79⟩⟩),
   ("brampton", ⟨43.7315, -79.7624, "Canada", ⟨43.82, 43.65, -79.65, -79.87⟩⟩),
   ("new york", ⟨40.7128, -74.0060, "USA", ⟨40.92, 40.50, -73.70, -74.26⟩⟩),
   ("houston", ⟨29.7604, -95.3698, "USA", ⟨30.11, 29.52, -95.01, -95.79⟩⟩),
   ("london", ⟨51.5074, -0.1278, "UK", ⟨51.69, 51.28, 0.33, -0.51⟩⟩),
   ("dubai", ⟨25.2048, 55.2708, "UAE", ⟨25.36, 24.79, 55.55, 54.89⟩⟩)]

/-- `INSERT INTO cities … ON CONFLICT (city) DO UPDATE SET hydrated_at =
NOW(), restaurant_count = (SELECT COUNT(*) FROM restaurants WHERE
LOWER(city) = LOWER($1))` (hydrate.js lines 571–578). -/
def upsertCityStats (st : Store) (cityName : String) (cd : CityData)
    (totalSaved : Nat) (now : Nat) : Store :=
  if st.cities.any (fun cr => cr.city == cityName) then
    { st with
      cities := st.cities.map (fun cr =>
        if cr.city == cityName then
          { cr with
            hydrated_at := now
            restaurant_count :=
              (st.restaurants.filter
                (fun r => lowerStr r.city == lowerStr cityName)).length }
        else cr) }
  else
    { st with
      cities := st.cities ++
        [⟨cityName, cd.country, cd.lat, cd.lng, now, totalSaved,
          "hydrate-v2"⟩] }

/-- `hydrateCity(cityName)` run against the deterministic environment `env`
from a seeded ledger and store.  `none` models the `process.exit(1)` on an
unknown city; otherwise the five phases run in their fixed order, followed
by the city-stats upsert. -/
def hydrateCity (env : Env) (cityName : String) (seen0 : SeenTable)
    (store0 : Store) : Option RunCtx :=
  (CITY_COORDS.lookup (lowerStr cityName)).map (fun cityData =>
    let c0 := initCtx seen0 store0
    let c1 := runPhaseQueries env cityName .explicitText
      EXPLICIT_HALAL_QUERIES c0
    let c2 := runGridPhase env cityName cityData.bounds c1
    let c3 := runPhaseQueries env cityName .alwaysCuisine
      ALWAYS_HALAL_QUERIES c2
    let c4 := runPhaseQueries env cityName .likelyCuisine
      LIKELY_HALAL_QUERIES c3
    let c5 := runPhaseQueries env cityName .reviewScan
      CHECK_REVIEWS_QUERIES c4
    { c5 with
      store := upsertCityStats c5.store cityName cityData c5.totalSaved
        c5.clock })

/-! ## Trace observations, invariant predicates and concrete test worlds -/

/-- Event is a detail fetch of `pid`. -/
def isDetailFor (pid : String) : Event → Bool
  | Event.detailCall p => p == pid
  | _ => false

/-- Event is a `saveRestaurant` invocation for `pid`. -/
def isSaveFor (pid : String) : Event → Bool
  | Event.saveCall p _ _ _ _ _ => p == pid
  | _ => false

/-- Event is a `saveRestaurant` invocation whose `place_id` already had a
`google_metadata` row at the time of the call (a duplicate insert). -/
def isDupSave : Event → Bool
  | Event.saveCall _ _ _ _ dup _ => dup
  | _ => false

/-- The save event carries one of the five (status, channel, confidence)
triples of §4.4. -/
def savePred : Event → Bool
  | Event.saveCall _ status channel confidence _ _ =>
    (channel == "explicit" && status == "verified" && confidence == 95) ||
    (channel == "explicit-grid" && status == "verified" && confidence == 90) ||
    (channel == "cuisine" && status == "verified" && confidence == 85) ||
    (channel == "cuisine-likely" && status == "unverified" &&
      confidence == 75) ||
    (channel == "review" && status == "unverified" && confidence == 70)
  | _ => true

def countEv (p : Event → Bool) (tr : List Event) : Nat :=
  (tr.filter p).length

/-- Every `google_metadata` row's `place_id` is in the ledger. -/
def StoreLedgerInv (c : RunCtx) : Prop :=
  ∀ m ∈ c.store.metadata, isPlaceSeen c.seen m.place_id = true

/-- A stored restaurant row carries one of the five phase
(status, discovery channel, confidence) triples of §4.4. -/
def rowPred (r : RestaurantRow) : Bool :=
  (r.discovered_via == "explicit" && r.halal_status == "verified" &&
    r.halal_confidence_score == 95) ||
  (r.discovered_via == "explicit-grid" && r.halal_status == "verified" &&
    r.halal_confidence_score == 90) ||
  (r.discovered_via == "cuisine" && r.halal_status == "verified" &&
    r.halal_confidence_score == 85) ||
  (r.discovered_via == "cuisine-likely" && r.halal_status == "unverified" &&
    r.halal_confidence_score == 75) ||
  (r.discovered_via == "review" && r.halal_status == "unverified" &&
    r.halal_confidence_score == 70)

/-- Step guarantee relation on run states: the trace only grows, the ledger
only grows, places already in the ledger get no further detail fetches or
save calls, the store/ledger invariant is preserved with no duplicate save
appearing, and every save event carries one of the phase triples. -/
def Good (c c' : RunCtx) : Prop :=
  (∃ δ, c'.trace = c.trace ++ δ) ∧
  (∀ q, isPlaceSeen c.seen q = true → isPlaceSeen c'.seen q = true) ∧
  (∀ q, isPlaceSeen c.seen q = true →
    countEv (isDetailFor q) c'.trace = countEv (isDetailFor q) c.trace ∧
    countEv (isSaveFor q) c'.trace = countEv (isSaveFor q) c.trace) ∧
  (StoreLedgerInv c →
    StoreLedgerInv c' ∧ countEv isDupSave c'.trace = countEv isDupSave c.trace) ∧
  (c.trace.all savePred = true → c'.trace.all savePred = true) ∧
  ((∀ r ∈ c.store.restaurants, rowPred r = true) →
    ∀ r ∈ c'.store.restaurants, rowPred r = true)

/-- Unit-square bounds used as the explicit failing input for C4. -/
def testvilleBounds : Bounds := ⟨1, 0, 1, 0⟩

/-- Detail payload of the candidate `P1` used in concrete runs. -/
def d1 : PlaceDetails :=
  { place_id := "P1"
    name := "Halal Grill"
    formatted_address := "1 Main St"
    lat := 0
    lng := 0
    rating := none
    user_ratings_total := none
    reviews := some [⟨some "Great halal food"⟩]
    photos := none
    formatted_phone_number := none
    website := none
    opening_hours_weekday_text := none }

/-- One-candidate world: the query `halal restaurant` returns `P1` on a
single page, the grid and every other query return nothing, details exist
only for `P1`, the store never fails. -/
def envOne : Env :=
  { textPages := fun q _ =>
      if q == "halal restaurant" then [TextResp.page [⟨"P1"⟩] false] else []
    nearby := fun _ _ _ _ => some []
    details := fun pid => if pid == "P1" then some d1 else none
    storeErr := fun _ => none }

/-- First run of `hydrateCity` on the one-candidate world from empty state. -/
def run1ctx : RunCtx :=
  (hydrateCity envOne "calgary" [] emptyStore).getD (initCtx [] emptyStore)

/-- Second run, seeded with the first run's ledger and store. -/
def run2ctx : RunCtx :=
  (hydrateCity envOne "calgary" run1ctx.seen run1ctx.store).getD
    (initCtx [] emptyStore)

/-- World in which every external call fails: empty pages, failed proximity
searches, failed detail fetches. -/
def envNone : Env :=
  { textPages := fun _ _ => []
    nearby := fun _ _ _ _ => none
    details := fun _ => none
    storeErr := fun _ => none }

/-- Same world as `envOne` but every store write fails at the `restaurants`
insert. -/
def envErr : Env :=
  { textPages := fun q _ =>
      if q == "halal restaurant" then [TextResp.page [⟨"P1"⟩] false] else []
    nearby := fun _ _ _ _ => some []
    details := fun pid => if pid == "P1" then some d1 else none
    storeErr := fun _ => some StoreErrAt.restaurantsInsert }

def dB : PlaceDetails := { d1 with place_id := "B1", name := "Bistro B" }

def dC : PlaceDetails := { d1 with place_id := "C1", name := "Cafe C" }

/-- Three-candidate world for the error-containment claim: `A1`'s detail
fetch fails, `B1` is fine, `C1`'s store write fails. -/
def envC9 : Env :=
  { textPages := fun q _ =>
      if q == "halal restaurant" then
        [TextResp.page [⟨"A1"⟩, ⟨"B1"⟩, ⟨"C1"⟩] false]
      else []
    nearby := fun _ _ _ _ => none
    details := fun pid =>
      if pid == "B1" then some dB
      else if pid == "C1" then some dC
      else none
    storeErr := fun pid =>
      if pid == "C1" then some StoreErrAt.restaurantsInsert else none }

/-- A store that already holds a restaurant record for `P1` together with
its `google_metadata` row. -/
def restaurantRowP1 : RestaurantRow :=
  { rid := 0
    name := "Halal Grill"
    address := "1 Main St"
    city := "calgary"
    lat := 0
    lng := 0
    cuisine := "Restaurant"
    halal_status := "verified"
    halal_confidence_score := 95
    source := "google"
    image := none
    discovered_via := "explicit" }

def metadataRowP1 : MetadataRow :=
  { restaurant_id := 0
    place_id := "P1"
    rating := none
    review_count := 0
    phone := none
    website := none
    hours := none }

def dupStore : Store :=
  { restaurants := [restaurantRowP1]
    metadata := [metadataRowP1]
    cities := []
    nextId := 1 }

/-! ## Ledger lemmas -/

theorem seen_keys_mem (t : SeenTable) (pid : String) :
    isPlaceSeen t pid = true ↔ pid ∈ t.map Prod.fst := by
  simp only [isPlaceSeen, List.any_eq_true, List.mem_map, beq_iff_eq]

theorem lookup_isSome_eq_isPlaceSeen (t : SeenTable) (pid : String) :
    (t.lookup pid).isSome = isPlaceSeen t pid := by
  induction t with
  | nil => rfl
  | cons e rest ih =>
    rcases e with ⟨k, v⟩
    by_cases hk : pid = k
    · subst hk; simp [List.lookup, isPlaceSeen]
    · have h1 : (pid == k) = false := beq_eq_false_iff_ne.mpr hk
      have h2 : (k == pid) = false := beq_eq_false_iff_ne.mpr (Ne.symm hk)
      simp only [List.lookup, h1, isPlaceSeen, List.any_cons, h2,
        Bool.false_or]
      exact ih

theorem lookup_append_single_of_not_seen (t : SeenTable) (pid : String)
    (r : SeenRow) (h : isPlaceSeen t pid = false) :
    (t ++ [(pid, r)]).lookup pid = some r := by
  induction t with
  | nil => simp [List.lookup]
  | cons e rest ih =>
    rcases e with ⟨k, v⟩
    simp only [isPlaceSeen, List.any_cons, Bool.or_eq_false_iff] at h
    have h1 : (pid == k) = false := by
      rcases h with ⟨hk, _⟩
      exact beq_eq_false_iff_ne.mpr (fun hE => by simp [hE] at hk)
    simp only [List.cons_append, List.lookup, h1]
    exact ih h.2

theorem lookup_map_update (t : SeenTable) (pid : String) (now : Nat) :
    (t.map (fun e =>
      match e.1 == pid with
      | true => (e.1, { e.2 with checked_at := now })
      | false => e)).lookup pid =
      (t.lookup pid).map (fun r => { r with checked_at := now }) := by
  induction t with
  | nil => rfl
  | cons e rest ih =>
    rcases e with ⟨k, v⟩
    by_cases hk : pid = k
    · subst hk
      have hc : (pid == pid) = true := by simp
      simp only [List.map_cons, hc, List.lookup]
      rfl
    · have h1 : (pid == k) = false := beq_eq_false_iff_ne.mpr hk
      have h2 : (k == pid) = false := beq_eq_false_iff_ne.mpr (Ne.symm hk)
      simp only [List.map_cons, h2, List.lookup, h1]
      exact ih

theorem keys_markPlaceSeen_of_seen (t : SeenTable) (pid city name : String)
    (b : Bool) (now : Nat) (h : isPlaceSeen t pid = true) :
    (markPlaceSeen t pid city name b now).map Prod.fst = t.map Prod.fst := by
  simp only [markPlaceSeen, h, if_true, List.map_map]
  refine List.map_congr_left (fun e _ => ?_)
  cases hbe : e.1 == pid <;> simp [hbe]

theorem keys_markPlaceSeen_of_not_seen (t : SeenTable)
    (pid city name : String) (b : Bool) (now : Nat)
    (h : isPlaceSeen t pid = false) :
    (markPlaceSeen t pid city name b now).map Prod.fst =
      t.map Prod.fst ++ [pid] := by
  simp [markPlaceSeen, h]

theorem isPlaceSeen_markPlaceSeen_self (t : SeenTable)
    (pid city name : String) (b : Bool) (now : Nat) :
    isPlaceSeen (markPlaceSeen t pid city name b now) pid = true := by
  rw [seen_keys_mem]
  by_cases h : isPlaceSeen t pid = true
  · rw [keys_markPlaceSeen_of_seen t pid city name b now h]
    exact (seen_keys_mem t pid).mp h
  · rw [keys_markPlaceSeen_of_not_seen t pid city name b now
      (by simpa using h)]
    simp

theorem isPlaceSeen_markPlaceSeen_mono (t : SeenTable)
    (pid city name q : String) (b : Bool) (now : Nat)
    (h : isPlaceSeen t q = true) :
    isPlaceSeen (markPlaceSeen t pid city name b now) q = true := by
  rw [seen_keys_mem]
  by_cases hs : isPlaceSeen t pid = true
  · rw [keys_markPlaceSeen_of_seen t pid city name b now hs]
    exact (seen_keys_mem t q).mp h
  · rw [keys_markPlaceSeen_of_not_seen t pid city name b now
      (by simpa using hs)]
    exact List.mem_append_left _ ((seen_keys_mem t q).mp h)

theorem lookup_markPlaceSeen_fresh (t : SeenTable) (pid city name : String)
    (b : Bool) (now : Nat) (h : isPlaceSeen t pid = false) :
    (markPlaceSeen t pid city name b now).lookup pid =
      some ⟨city, name, b, now⟩ := by
  simp only [markPlaceSeen, h, Bool.false_eq_true, if_false]
  exact lookup_append_single_of_not_seen t pid _ h

theorem lookup_markPlaceSeen_conflict (t : SeenTable)
    (pid city name : String) (b : Bool) (now : Nat) (r : SeenRow)
    (h : t.lookup pid = some r) :
    (markPlaceSeen t pid city name b now).lookup pid =
      some { r with checked_at := now } := by
  have hseen : isPlaceSeen t pid = true := by
    rw [← lookup_isSome_eq_isPlaceSeen, h]; rfl
  simp only [markPlaceSeen, hseen, if_true]
  rw [lookup_map_update t pid now, h]
  rfl

/-! ## Grid lemmas -/

theorem length_flatMap_const {α β : Type _} (l : List α) (f : α → List β)
    (m : Nat) (h : ∀ a ∈ l, (f a).length = m) :
    (l.flatMap f).length = l.length * m := by
  induction l with
  | nil => simp
  | cons a t ih =>
    simp only [List.flatMap_cons, List.length_append, List.length_cons]
    rw [h a (by simp), ih (fun x hx => h x (by simp [hx]))]
    ring

theorem generateGridPoints_length (b : Bounds) (g : Nat) :
    (generateGridPoints b g).length = (g + 1) ^ 2 := by
  have key : ∀ (f : Nat → Nat → GridPoint),
      ((List.range (g + 1)).flatMap fun i =>
        (List.range (g + 1)).map fun j => f i j).length = (g + 1) ^ 2 := by
    intro f
    rw [length_flatMap_const _ _ (g + 1) (fun a _ => by
      rw [List.length_map, List.length_range])]
    rw [List.length_range, pow_two]
  have hunfold : generateGridPoints b g =
      (List.range (g + 1)).flatMap (fun (i : Nat) =>
        (List.range (g + 1)).map (fun (j : Nat) =>
          ({ lat := b.south + (i : ℚ) * ((b.north - b.south) / (g : ℚ)) +
                ((b.north - b.south) / (g : ℚ)) / 2
             lng := b.west + (j : ℚ) * ((b.east - b.west) / (g : ℚ)) +
                ((b.east - b.west) / (g : ℚ)) / 2 } : GridPoint))) := rfl
  rw [hunfold]
  exact key _

theorem mem_generateGridPoints (b : Bounds) (g i j : Nat)
    (hi : i < g + 1) (hj : j < g + 1) :
    (⟨b.south + (i : ℚ) * ((b.north - b.south) / (g : ℚ)) +
        ((b.north - b.south) / (g : ℚ)) / 2,
      b.west + (j : ℚ) * ((b.east - b.west) / (g : ℚ)) +
        ((b.east - b.west) / (g : ℚ)) / 2⟩ : GridPoint) ∈
      generateGridPoints b g := by
  simp only [generateGridPoints, List.mem_flatMap, List.mem_map,
    List.mem_range]
  exact ⟨i, hi, j, hj, rfl⟩

/-! ## Trace observations -/

theorem countEv_append (p : Event → Bool) (tr δ : List Event) :
    countEv p (tr ++ δ) = countEv p tr + countEv p δ := by
  simp [countEv, List.filter_append]

theorem good_rfl (c : RunCtx) : Good c c :=
  ⟨⟨[], by simp⟩, fun _ h => h, fun _ _ => ⟨rfl, rfl⟩,
   fun h => ⟨h, rfl⟩, fun h => h, fun h => h⟩

theorem good_trans {a b c : RunCtx} (h1 : Good a b) (h2 : Good b c) :
    Good a c := by
  obtain ⟨⟨δ1, e1⟩, m1, c1, i1, s1, r1⟩ := h1
  obtain ⟨⟨δ2, e2⟩, m2, c2, i2, s2, r2⟩ := h2
  refine ⟨⟨δ1 ++ δ2, by rw [e2, e1, List.append_assoc]⟩,
    fun q hq => m2 q (m1 q hq), fun q hq => ?_, fun hinv => ?_,
    fun hok => s2 (s1 hok), fun hr => r2 (r1 hr)⟩
  · have hb := c2 q (m1 q hq)
    have ha := c1 q hq
    exact ⟨hb.1.trans ha.1, hb.2.trans ha.2⟩
  · obtain ⟨ib, da⟩ := i1 hinv
    obtain ⟨ic, db⟩ := i2 ib
    exact ⟨ic, db.trans da⟩

theorem good_of_parts (c c' : RunCtx) (δ : List Event)
    (htr : c'.trace = c.trace ++ δ)
    (hseen : ∀ q, isPlaceSeen c.seen q = true → isPlaceSeen c'.seen q = true)
    (hdet : ∀ q, isPlaceSeen c.seen q = true →
      countEv (isDetailFor q) δ = 0 ∧ countEv (isSaveFor q) δ = 0)
    (hinv : StoreLedgerInv c → StoreLedgerInv c' ∧ countEv isDupSave δ = 0)
    (hsp : δ.all savePred = true)
    (hrows : (∀ r ∈ c.store.restaurants, rowPred r = true) →
      ∀ r ∈ c'.store.restaurants, rowPred r = true) :
    Good c c' := by
  refine ⟨⟨δ, htr⟩, hseen, fun q hq => ?_, fun h => ?_, fun hok => ?_, hrows⟩
  · rw [htr, countEv_append, countEv_append, (hdet q hq).1, (hdet q hq).2]
    simp
  · exact ⟨(hinv h).1, by rw [htr, countEv_append, (hinv h).2]; simp⟩
  · rw [htr, List.all_append, hok, hsp]
    rfl

theorem good_foldl {α : Type _} (f : RunCtx → α → RunCtx) (l : List α)
    (h : ∀ c a, Good c (f c a)) : ∀ c, Good c (l.foldl f c) := by
  induction l with
  | nil => intro c; exact good_rfl c
  | cons a t ih =>
    intro c
    exact good_trans (h c a) (ih (f c a))

/-! ## Step lemmas -/

theorem ne_of_seen_of_not_seen {t : SeenTable} {p q : String}
    (hq : isPlaceSeen t q = true) (hp : isPlaceSeen t p = false) : p ≠ q := by
  intro h
  rw [h, hq] at hp
  exact absurd hp (by simp)

theorem saveRestaurant_metadata_sub (st : Store) (err : Option StoreErrAt)
    (details : PlaceDetails) (city status channel : String) (conf : Nat) :
    ∀ m ∈ (saveRestaurant st err details city status channel conf).1.metadata,
      m ∈ st.metadata ∨ m.place_id = details.place_id := by
  intro m hm
  simp only [saveRestaurant] at hm
  split_ifs at hm
  · exact Or.inl hm
  · exact Or.inl hm
  · exact Or.inl hm
  · exact Or.inl hm
  · exact Or.inl hm
  · exact Or.inl hm
  · rcases List.mem_append.mp hm with h | h
    · exact Or.inl h
    · simp only [List.mem_singleton] at h
      subst h
      exact Or.inr rfl

theorem saveRestaurant_restaurants_sub (st : Store) (err : Option StoreErrAt)
    (details : PlaceDetails) (city status channel : String) (conf : Nat) :
    ∀ r ∈ (saveRestaurant st err details city status channel
        conf).1.restaurants,
      r ∈ st.restaurants ∨
        (r.halal_status = status ∧ r.discovered_via = channel ∧
          r.halal_confidence_score = conf) := by
  intro r hr
  simp only [saveRestaurant] at hr
  split_ifs at hr
  · exact Or.inl hr
  · exact Or.inl hr
  · exact Or.inl hr
  · rcases List.mem_append.mp hr with h | h
    · exact Or.inl h
    · simp only [List.mem_singleton] at h
      subst h
      exact Or.inr ⟨rfl, rfl, rfl⟩
  · rcases List.mem_append.mp hr with h | h
    · exact Or.inl h
    · simp only [List.mem_singleton] at h
      subst h
      exact Or.inr ⟨rfl, rfl, rfl⟩
  · rcases List.mem_append.mp hr with h | h
    · exact Or.inl h
    · simp only [List.mem_singleton] at h
      subst h
      exact Or.inr ⟨rfl, rfl, rfl⟩
  · rcases List.mem_append.mp hr with h | h
    · exact Or.inl h
    · simp only [List.mem_singleton] at h
      subst h
      exact Or.inr ⟨rfl, rfl, rfl⟩

theorem rowPred_phase (ph : Phase) (r : RestaurantRow)
    (h : r.halal_status = ph.status ∧ r.discovered_via = ph.channel ∧
      r.halal_confidence_score = ph.confidence) : rowPred r = true := by
  obtain ⟨h1, h2, h3⟩ := h
  cases ph <;>
    simp [rowPred, h1, h2, h3, Phase.status, Phase.channel, Phase.confidence]

theorem bumpSaved_trace (ph : Phase) (s : Bool) (c : RunCtx) :
    (bumpSaved ph s c).trace = c.trace := by
  cases s <;> simp [bumpSaved]

theorem bumpSaved_seen (ph : Phase) (s : Bool) (c : RunCtx) :
    (bumpSaved ph s c).seen = c.seen := by
  cases s <;> simp [bumpSaved]

theorem bumpSaved_store (ph : Phase) (s : Bool) (c : RunCtx) :
    (bumpSaved ph s c).store = c.store := by
  cases s <;> simp [bumpSaved]

theorem savePred_phase (ph : Phase) (pid : String) (dup created : Bool) :
    savePred (Event.saveCall pid ph.status ph.channel ph.confidence
      dup created) = true := by
  cases ph <;> rfl

theorem good_saveAndMark (env : Env) (city : String) (ph : Phase)
    (place : Candidate) (details : PlaceDetails) (isHalal : Bool)
    (c : RunCtx) (hdp : details.place_id = place.place_id)
    (hs : isPlaceSeen c.seen place.place_id = false) :
    Good c (saveAndMark env city ph place details isHalal c) := by
  have hdup : StoreLedgerInv c →
      (c.store.metadata.any (fun m => m.place_id == details.place_id)) =
        false := by
    intro hinv
    cases hany : c.store.metadata.any
        (fun m => m.place_id == details.place_id) with
    | false => rfl
    | true =>
      obtain ⟨m, hm, hbe⟩ := List.any_eq_true.mp hany
      have : m.place_id = details.place_id := by simpa using hbe
      have hseenm := hinv m hm
      rw [this, hdp, hs] at hseenm
      exact absurd hseenm (by simp)
  apply good_of_parts _ _
    [Event.saveCall details.place_id ph.status ph.channel ph.confidence
      (c.store.metadata.any (fun m => m.place_id == details.place_id))
      (saveRestaurant c.store (env.storeErr details.place_id) details city
        ph.status ph.channel ph.confidence).2,
     Event.markSeen place.place_id isHalal]
  · rw [show saveAndMark env city ph place details isHalal c =
        bumpSaved ph (saveRestaurant c.store
          (env.storeErr details.place_id) details city ph.status ph.channel
          ph.confidence).2 _ from rfl, bumpSaved_trace]
  · intro q hq
    rw [show saveAndMark env city ph place details isHalal c =
        bumpSaved ph (saveRestaurant c.store
          (env.storeErr details.place_id) details city ph.status ph.channel
          ph.confidence).2 _ from rfl, bumpSaved_seen]
    exact isPlaceSeen_markPlaceSeen_mono _ _ _ _ _ _ _ hq
  · intro q hq
    have hne : details.place_id ≠ q := by
      rw [hdp]
      exact ne_of_seen_of_not_seen hq hs
    have hbe : (details.place_id == q) = false := beq_eq_false_iff_ne.mpr hne
    constructor <;> simp [countEv, isDetailFor, isSaveFor, hbe]
  · intro hinv
    constructor
    · intro m hm
      rw [show saveAndMark env city ph place details isHalal c =
          bumpSaved ph (saveRestaurant c.store
            (env.storeErr details.place_id) details city ph.status ph.channel
            ph.confidence).2 _ from rfl, bumpSaved_store] at hm
      rw [show saveAndMark env city ph place details isHalal c =
          bumpSaved ph (saveRestaurant c.store
            (env.storeErr details.place_id) details city ph.status ph.channel
            ph.confidence).2 _ from rfl, bumpSaved_seen]
      rcases saveRestaurant_metadata_sub c.store
          (env.storeErr details.place_id) details city ph.status ph.channel
          ph.confidence m hm with h | h
      · exact isPlaceSeen_markPlaceSeen_mono _ _ _ _ _ _ _ (hinv m h)
      · rw [h, hdp]
        exact isPlaceSeen_markPlaceSeen_self _ _ _ _ _ _
    · rw [hdup hinv]
      simp [countEv, isDupSave]
  · simp only [List.all_cons, List.all_nil, savePred_phase]
    rfl
  · intro hr r hrr
    rw [show saveAndMark env city ph place details isHalal c =
        bumpSaved ph (saveRestaurant c.store
          (env.storeErr details.place_id) details city ph.status ph.channel
          ph.confidence).2 _ from rfl, bumpSaved_store] at hrr
    rcases saveRestaurant_restaurants_sub c.store
        (env.storeErr details.place_id) details city ph.status ph.channel
        ph.confidence r hrr with h | h
    · exact hr r h
    · exact rowPred_phase ph r h

theorem good_detailStep (place : Candidate) (c : RunCtx)
    (hs : isPlaceSeen c.seen place.place_id = false) :
    Good c (detailStep place c) := by
  apply good_of_parts _ _ [Event.detailCall place.place_id]
  · rfl
  · intro q hq; exact hq
  · intro q hq
    have hbe : (place.place_id == q) = false :=
      beq_eq_false_iff_ne.mpr (ne_of_seen_of_not_seen hq hs)
    constructor <;> simp [countEv, isDetailFor, isSaveFor, hbe]
  · intro hinv
    exact ⟨fun m hm => hinv m hm, rfl⟩
  · rfl
  · exact fun h => h

theorem good_processPlace (env : Env) (hc : EnvConsistent env)
    (city : String) (ph : Phase) (place : Candidate) (c : RunCtx) :
    Good c (processPlace env city ph place c) := by
  by_cases hs : isPlaceSeen c.seen place.place_id = true
  · -- ledger hit: only a skip event and a skip-count bump
    have hpp : processPlace env city ph place c =
        { c with
          trace := c.trace ++ [Event.skip place.place_id]
          totalSkipped := c.totalSkipped + 1 } := by
      simp [processPlace, hs]
    rw [hpp]
    apply good_of_parts _ _ [Event.skip place.place_id]
    · rfl
    · intro q hq; exact hq
    · intro q hq; exact ⟨rfl, rfl⟩
    · intro hinv; exact ⟨fun m hm => hinv m hm, rfl⟩
    · rfl
    · exact fun h => h
  · have hs' : isPlaceSeen c.seen place.place_id = false := by
      simpa using hs
    have g1 : Good c (detailStep place c) := good_detailStep place c hs'
    have hs1 : isPlaceSeen (detailStep place c).seen place.place_id =
        false := hs'
    simp only [processPlace, hs', Bool.false_eq_true, if_false]
    cases hd : env.details place.place_id with
    | none => exact g1
    | some details =>
      have hdp : details.place_id = place.place_id := hc _ _ hd
      cases ph with
      | reviewScan =>
        dsimp only
        cases hr : checkReviewsForHalal (details.reviews.getD []) with
        | some k =>
          exact good_trans g1 (good_saveAndMark env city .reviewScan place
            details true (detailStep place c) hdp hs1)
        | none =>
          refine good_trans g1 (good_of_parts _ _
            [Event.markSeen place.place_id false] rfl ?_ ?_ ?_ rfl
            (fun h => h))
          · intro q hq
            exact isPlaceSeen_markPlaceSeen_mono _ _ _ _ _ _ _ hq
          · intro q hq
            exact ⟨rfl, rfl⟩
          · intro hinv
            refine ⟨fun m hm => ?_, rfl⟩
            exact isPlaceSeen_markPlaceSeen_mono _ _ _ _ _ _ _ (hinv m hm)
      | explicitText =>
        exact good_trans g1 (good_saveAndMark env city .explicitText place
          details true (detailStep place c) hdp hs1)
      | explicitGrid =>
        exact good_trans g1 (good_saveAndMark env city .explicitGrid place
          details true (detailStep place c) hdp hs1)
      | alwaysCuisine =>
        exact good_trans g1 (good_saveAndMark env city .alwaysCuisine place
          details true (detailStep place c) hdp hs1)
      | likelyCuisine =>
        exact good_trans g1 (good_saveAndMark env city .likelyCuisine place
          details true (detailStep place c) hdp hs1)

theorem countEv_replicate_zero (p : Event → Bool) (n : Nat) (e : Event)
    (hp : p e = false) : countEv p (List.replicate n e) = 0 := by
  induction n with
  | zero => rfl
  | succ m ih =>
    simp only [List.replicate_succ, countEv, List.filter_cons, hp,
      Bool.false_eq_true, if_false]
    exact ih

theorem all_replicate_of (p : Event → Bool) (n : Nat) (e : Event)
    (hp : p e = true) : (List.replicate n e).all p = true := by
  induction n with
  | zero => rfl
  | succ m ih =>
    simp only [List.replicate_succ, List.all_cons, hp, Bool.true_and]
    exact ih

theorem good_getAllSearchResults (env : Env) (q city : String) (c : RunCtx) :
    Good c (getAllSearchResults env q city c).2 := by
  apply good_of_parts _ _
    (List.replicate (collectPages (env.textPages q city)).2
      (Event.textCall q city))
  · rfl
  · intro x hx; exact hx
  · intro x hx
    exact ⟨countEv_replicate_zero _ _ _ rfl, countEv_replicate_zero _ _ _ rfl⟩
  · intro hinv
    exact ⟨fun m hm => hinv m hm, countEv_replicate_zero _ _ _ rfl⟩
  · exact all_replicate_of _ _ _ rfl
  · exact fun h => h

theorem good_runNearby (env : Env) (lat lng : ℚ) (kw : String) (radius : Nat)
    (c : RunCtx) : Good c (runNearby env lat lng kw radius c).2 := by
  apply good_of_parts _ _ [Event.nearbyCall lat lng kw]
  · rfl
  · intro x hx; exact hx
  · intro x hx; exact ⟨rfl, rfl⟩
  · intro hinv; exact ⟨fun m hm => hinv m hm, rfl⟩
  · rfl
  · exact fun h => h

theorem good_runTextQuery (env : Env) (hc : EnvConsistent env)
    (city : String) (ph : Phase) (c : RunCtx) (q : String) :
    Good c (runTextQuery env city ph c q) :=
  good_trans (good_getAllSearchResults env q city c)
    (good_foldl _ _ (fun c' place => good_processPlace env hc city ph place c')
      _)

theorem good_runPhaseQueries (env : Env) (hc : EnvConsistent env)
    (city : String) (ph : Phase) (queries : List String) (c : RunCtx) :
    Good c (runPhaseQueries env city ph queries c) :=
  good_foldl _ _ (fun c' q => good_runTextQuery env hc city ph c' q) c

theorem good_runGridPhase (env : Env) (hc : EnvConsistent env)
    (city : String) (bounds : Bounds) (c : RunCtx) :
    Good c (runGridPhase env city bounds c) := by
  apply good_foldl _ _ _ c
  intro c' point
  exact good_trans (good_runNearby env point.lat point.lng "halal" 4000 c')
    (good_foldl _ _
      (fun c'' place => good_processPlace env hc city .explicitGrid place c'')
      _)

theorem upsertCityStats_metadata (st : Store) (cityName : String)
    (cd : CityData) (totalSaved now : Nat) :
    (upsertCityStats st cityName cd totalSaved now).metadata = st.metadata := by
  simp only [upsertCityStats]
  split_ifs <;> rfl

theorem upsertCityStats_restaurants (st : Store) (cityName : String)
    (cd : CityData) (totalSaved now : Nat) :
    (upsertCityStats st cityName cd totalSaved now).restaurants =
      st.restaurants := by
  simp only [upsertCityStats]
  split_ifs <;> rfl

theorem good_finalize (cityName : String) (cd : CityData) (c : RunCtx) :
    Good c
      { c with
        store := upsertCityStats c.store cityName cd c.totalSaved c.clock } := by
  apply good_of_parts _ _ []
  · simp
  · intro q hq; exact hq
  · intro q hq; exact ⟨rfl, rfl⟩
  · intro hinv
    refine ⟨fun m hm => ?_, rfl⟩
    rw [upsertCityStats_metadata] at hm
    exact hinv m hm
  · rfl
  · intro h r hr
    rw [upsertCityStats_restaurants] at hr
    exact h r hr

/-- A successful `hydrateCity` run is a `Good` step from its seeded initial
state. -/
theorem hydrate_good (env : Env) (hc : EnvConsistent env) (cityName : String)
    (s0 : SeenTable) (st0 : Store) (ctx : RunCtx)
    (h : hydrateCity env cityName s0 st0 = some ctx) :
    Good (initCtx s0 st0) ctx := by
  unfold hydrateCity at h
  cases hl : CITY_COORDS.lookup (lowerStr cityName) with
  | none => rw [hl] at h; exact absurd h (by simp)
  | some cd =>
    rw [hl] at h
    simp only [Option.map_some', Option.some.injEq] at h
    rw [← h]
    refine good_trans (good_runPhaseQueries env hc cityName .explicitText
        EXPLICIT_HALAL_QUERIES _)
      (good_trans (good_runGridPhase env hc cityName cd.bounds _)
        (good_trans (good_runPhaseQueries env hc cityName .alwaysCuisine
            ALWAYS_HALAL_QUERIES _)
          (good_trans (good_runPhaseQueries env hc cityName .likelyCuisine
              LIKELY_HALAL_QUERIES _)
            (good_trans (good_runPhaseQueries env hc cityName .reviewScan
                CHECK_REVIEWS_QUERIES _)
              (good_finalize cityName cd _)))))

/-! ## Per-candidate observations -/

theorem saveAndMark_seen (env : Env) (city : String) (ph : Phase)
    (place : Candidate) (details : PlaceDetails) (isHalal : Bool)
    (c : RunCtx) :
    (saveAndMark env city ph place details isHalal c).seen =
      markPlaceSeen c.seen place.place_id city details.name isHalal
        c.clock := by
  rw [show saveAndMark env city ph place details isHalal c =
      bumpSaved ph (saveRestaurant c.store (env.storeErr details.place_id)
        details city ph.status ph.channel ph.confidence).2 _ from rfl,
    bumpSaved_seen]

theorem saveAndMark_trace (env : Env) (city : String) (ph : Phase)
    (place : Candidate) (details : PlaceDetails) (isHalal : Bool)
    (c : RunCtx) :
    (saveAndMark env city ph place details isHalal c).trace =
      c.trace ++
        [Event.saveCall details.place_id ph.status ph.channel ph.confidence
          (c.store.metadata.any (fun m => m.place_id == details.place_id))
          (saveRestaurant c.store (env.storeErr details.place_id) details
            city ph.status ph.channel ph.confidence).2,
         Event.markSeen place.place_id isHalal] := by
  rw [show saveAndMark env city ph place details isHalal c =
      bumpSaved ph (saveRestaurant c.store (env.storeErr details.place_id)
        details city ph.status ph.channel ph.confidence).2 _ from rfl,
    bumpSaved_trace]

theorem saveAndMark_store (env : Env) (city : String) (ph : Phase)
    (place : Candidate) (details : PlaceDetails) (isHalal : Bool)
    (c : RunCtx) :
    (saveAndMark env city ph place details isHalal c).store =
      (saveRestaurant c.store (env.storeErr details.place_id) details city
        ph.status ph.channel ph.confidence).1 := by
  rw [show saveAndMark env city ph place details isHalal c =
      bumpSaved ph (saveRestaurant c.store (env.storeErr details.place_id)
        details city ph.status ph.channel ph.confidence).2 _ from rfl,
    bumpSaved_store]

theorem processPlace_marks_seen (env : Env) (city : String) (ph : Phase)
    (place : Candidate) (c : RunCtx) (d : PlaceDetails)
    (hs : isPlaceSeen c.seen place.place_id = false)
    (hd : env.details place.place_id = some d) :
    isPlaceSeen (processPlace env city ph place c).seen place.place_id =
      true := by
  simp only [processPlace, hs, Bool.false_eq_true, if_false, hd]
  cases ph with
  | reviewScan =>
    dsimp only
    cases hr : checkReviewsForHalal (d.reviews.getD []) with
    | some k =>
      rw [saveAndMark_seen]
      exact isPlaceSeen_markPlaceSeen_self _ _ _ _ _ _
    | none => exact isPlaceSeen_markPlaceSeen_self _ _ _ _ _ _
  | explicitText =>
    rw [saveAndMark_seen]
    exact isPlaceSeen_markPlaceSeen_self _ _ _ _ _ _
  | explicitGrid =>
    rw [saveAndMark_seen]
    exact isPlaceSeen_markPlaceSeen_self _ _ _ _ _ _
  | alwaysCuisine =>
    rw [saveAndMark_seen]
    exact isPlaceSeen_markPlaceSeen_self _ _ _ _ _ _
  | likelyCuisine =>
    rw [saveAndMark_seen]
    exact isPlaceSeen_markPlaceSeen_self _ _ _ _ _ _

theorem processPlace_ledger_entry (env : Env) (city : String) (ph : Phase)
    (place : Candidate) (c : RunCtx) (d : PlaceDetails)
    (hph : ph ≠ Phase.reviewScan)
    (hs : isPlaceSeen c.seen place.place_id = false)
    (hd : env.details place.place_id = some d) :
    (processPlace env city ph place c).seen.lookup place.place_id =
      some ⟨city, d.name, true, c.clock⟩ := by
  simp only [processPlace, hs, Bool.false_eq_true, if_false, hd]
  cases ph with
  | reviewScan => exact absurd rfl hph
  | explicitText =>
    rw [saveAndMark_seen]
    exact lookup_markPlaceSeen_fresh _ _ _ _ _ _ hs
  | explicitGrid =>
    rw [saveAndMark_seen]
    exact lookup_markPlaceSeen_fresh _ _ _ _ _ _ hs
  | alwaysCuisine =>
    rw [saveAndMark_seen]
    exact lookup_markPlaceSeen_fresh _ _ _ _ _ _ hs
  | likelyCuisine =>
    rw [saveAndMark_seen]
    exact lookup_markPlaceSeen_fresh _ _ _ _ _ _ hs

theorem checkReviewsForHalal_eq_none_iff (reviews : List Review) :
    checkReviewsForHalal reviews = none ↔
      ∀ r ∈ reviews, ∀ k ∈ halalKeywords,
        strIncludes (lowerStr (r.text.getD "")) k = false := by
  simp [checkReviewsForHalal, findKeyword, List.findSome?_eq_none_iff,
    List.find?_eq_none]

/-! ## Concrete environments used in witnesses and counterexamples -/

theorem envOne_consistent : EnvConsistent envOne := by
  intro pid d h
  by_cases hp : pid = "P1"
  · subst hp
    have hd : d = d1 := by simpa [envOne] using h.symm
    rw [hd]
    rfl
  · exfalso
    have hb : (pid == "P1") = false := beq_eq_false_iff_ne.mpr hp
    simp only [envOne] at h
    rw [hb] at h
    exact absurd h (by simp)

/-! ## Claim C8 -/

/-- C8: `generateGridPoints(bounds, d)` yields exactly `(d+1)^2` points for
every bounds and density (in particular density 1 gives 4 points and the
reference density 4 gives 25 points). -/
theorem C8_grid_point_count :
    (∀ (b : Bounds) (d : Nat), (generateGridPoints b d).length = (d + 1) ^ 2) ∧
    (∀ b : Bounds, (generateGridPoints b 1).length = 4) ∧
    (∀ b : Bounds, (generateGridPoints b 4).length = 25) :=
  ⟨generateGridPoints_length,
   fun b => by rw [generateGridPoints_length]; norm_num,
   fun b => by rw [generateGridPoints_length]; norm_num⟩

/-! ## Claim C4 -/

/-- C4 fails on the code: with bounds north=1, south=0, east=1, west=0 and
density 1, the produced points are (1/2,1/2), (1/2,3/2), (3/2,1/2),
(3/2,3/2) — the last grid row and column lie half a cell outside the
bounding box (lat or lng = 3/2 > 1), contradicting "all points strictly
inside"; the same overshoot happens on the city actually hydrated
(Calgary at the reference density 4).  This contradicts the function's own
header comment "Generate grid points within city bounds". -/
theorem C4_grid_point_outside_bounds :
    (∃ p ∈ generateGridPoints testvilleBounds 1,
      testvilleBounds.north < p.lat ∧ testvilleBounds.east < p.lng) ∧
    (CITY_COORDS.lookup "calgary" =
      some ⟨51.0447, -114.0719, "Canada",
        ⟨51.18, 50.84, -113.86, -114.27⟩⟩) ∧
    (∃ p ∈ generateGridPoints
        (⟨51.18, 50.84, -113.86, -114.27⟩ : Bounds) 4,
      (51.18 : ℚ) < p.lat) := by
  refine ⟨⟨_, mem_generateGridPoints testvilleBounds 1 1 1
      (by norm_num) (by norm_num), ?_, ?_⟩, rfl,
    ⟨_, mem_generateGridPoints ⟨51.18, 50.84, -113.86, -114.27⟩ 4 4 0
      (by norm_num) (by norm_num), ?_⟩⟩
  · simp only [testvilleBounds]; norm_num
  · simp only [testvilleBounds]; norm_num
  · norm_num

/-! ## Claim C3 -/

/-- C3's last-write-wins part fails on the code: after marking "P1" with
`is_halal = true` and then with `is_halal = false`, the stored flag is still
`true` (the `ON CONFLICT` clause updates only `checked_at`), not the
`false` of the most recent call. -/
theorem C3_counterexample :
    (markPlaceSeen
        (markPlaceSeen [] "P1" "calgary" "Kabob Corner" true 0)
        "P1" "calgary" "Kabob Corner" false 1).lookup "P1" =
      some ⟨"calgary", "Kabob Corner", true, 1⟩ ∧
    ((markPlaceSeen
        (markPlaceSeen [] "P1" "calgary" "Kabob Corner" true 0)
        "P1" "calgary" "Kabob Corner" false 1).lookup "P1").map
      SeenRow.is_halal ≠ some false := by
  refine ⟨by decide, by decide⟩

/-- C3 (amended): `markPlaceSeen` is an idempotent upsert keyed on
`place_id`: with distinct keys, the keys stay distinct (at most one entry
per id, never losing the entry); marking an id already present refreshes
only `checked_at` and keeps `is_halal` (and city/name) as FIRST written
(first-write-wins); marking a fresh id inserts the given row. -/
theorem C3_ledger_upsert (t : SeenTable) (pid city name : String) (b : Bool)
    (now : Nat) (r : SeenRow) (hnodup : (t.map Prod.fst).Nodup) :
    ((markPlaceSeen t pid city name b now).map Prod.fst).Nodup ∧
    (t.lookup pid = some r →
      (markPlaceSeen t pid city name b now).lookup pid =
        some { r with checked_at := now }) ∧
    (t.lookup pid = none →
      (markPlaceSeen t pid city name b now).lookup pid =
        some ⟨city, name, b, now⟩) := by
  refine ⟨?_, fun h => lookup_markPlaceSeen_conflict t pid city name b now r h,
    fun h => ?_⟩
  · by_cases hs : isPlaceSeen t pid = true
    · rw [keys_markPlaceSeen_of_seen t pid city name b now hs]; exact hnodup
    · simp only [Bool.not_eq_true] at hs
      have hpid : pid ∉ t.map Prod.fst := by
        intro hmem
        obtain ⟨e, he, hfst⟩ := List.mem_map.mp hmem
        have : isPlaceSeen t pid = true := by
          simp only [isPlaceSeen, List.any_eq_true]
          exact ⟨e, he, by simp [hfst]⟩
        simp [this] at hs
      simp only [markPlaceSeen, hs, Bool.false_eq_true, if_false,
        List.map_append, List.map_cons, List.map_nil]
      simp [List.nodup_append, hnodup, hpid]
  · have hs : isPlaceSeen t pid = false := by
      rw [← lookup_isSome_eq_isPlaceSeen, h]; rfl
    exact lookup_markPlaceSeen_fresh t pid city name b now hs

/-! ## Claim C2 -/

/-- C2 fails as stated: a candidate whose detail fetch is issued but returns
null (`getPlaceDetails` error or missing `data.result`) is NOT marked seen —
the loop `continue`s before `markPlaceSeen`.  Concretely: processing unseen
candidate `P2` in a world with no detail payloads issues one detail call
(`placeDetailsCalls` becomes 1, a `detailCall` event is traced) yet the
ledger still does not contain `P2` afterwards. -/
theorem C2_counterexample :
    (processPlace envNone "calgary" Phase.explicitText ⟨"P2"⟩
        (initCtx [] emptyStore)).stats.placeDetailsCalls = 1 ∧
    (processPlace envNone "calgary" Phase.explicitText ⟨"P2"⟩
        (initCtx [] emptyStore)).trace = [Event.detailCall "P2"] ∧
    isPlaceSeen (processPlace envNone "calgary" Phase.explicitText ⟨"P2"⟩
        (initCtx [] emptyStore)).seen "P2" = false := by
  refine ⟨by decide, by decide, by decide⟩

/-- C2 (amended): every unseen candidate whose detail fetch SUCCEEDS is
marked seen in the ledger by the time its processing ends, in every phase —
both when it is classified compliant and when it is a review-scan non-match;
a candidate whose detail fetch fails is skipped unmarked. -/
theorem C2_marked_seen_after_successful_fetch (env : Env) (city : String)
    (ph : Phase) (place : Candidate) (c : RunCtx) (d : PlaceDetails)
    (hs : isPlaceSeen c.seen place.place_id = false)
    (hd : env.details place.place_id = some d) :
    isPlaceSeen (processPlace env city ph place c).seen place.place_id =
      true :=
  processPlace_marks_seen env city ph place c d hs hd

/-- Witness for C2's amended theorem: candidate `P1` with a successful
detail fetch is in the ledger afterwards. -/
theorem C2_marked_seen_witness :
    isPlaceSeen (initCtx [] emptyStore).seen "P1" = false ∧
    envOne.details "P1" = some d1 ∧
    isPlaceSeen (processPlace envOne "calgary" Phase.explicitText ⟨"P1"⟩
        (initCtx [] emptyStore)).seen "P1" = true :=
  ⟨by decide, rfl,
   C2_marked_seen_after_successful_fetch envOne "calgary" Phase.explicitText
     ⟨"P1"⟩ (initCtx [] emptyStore) d1 (by decide) rfl⟩

/-! ## Claim C7 -/

/-- C7 fails on the code: saving details for `P1` against a store that
already holds `P1`'s restaurant record inserts a SECOND restaurants row and
returns `true`.  The blanket `ON CONFLICT DO NOTHING` of the `restaurants`
insert can only arbitrate on the freshly generated UUID primary key
(`restaurants` has no natural unique key), so it never fires; only the
`google_metadata` insert (unique on `place_id`) is skipped, leaving the new
row without metadata.  This contradicts the intended insert-if-absent
contract the code's own duplicate-handling comment and the spec describe. -/
theorem C7_duplicate_insert_not_noop :
    (saveRestaurant dupStore none d1 "calgary" "verified" "explicit" 95).2 =
      true ∧
    (saveRestaurant dupStore none d1 "calgary" "verified" "explicit"
        95).1.restaurants.length = 2 ∧
    ((saveRestaurant dupStore none d1 "calgary" "verified" "explicit"
        95).1.metadata.map (fun m => m.place_id)) = ["P1"] := by
  refine ⟨by decide, by decide, by decide⟩

/-! ## Claim C10 -/

/-- C10: in the explicit-text, explicit-grid, always-cuisine and
likely-cuisine phases, an unseen candidate with a successful detail fetch is
entered in the ledger with `is_halal = true` regardless of whether
`saveRestaurant` reported a created record; with a store that fails every
write, the ledger says `is_halal = true` for `P1` while no restaurant row or
metadata row exists; and an id present in the ledger is only ever skipped by
later processing. -/
theorem C10_marked_halal_regardless_of_save (env : Env) (city : String)
    (ph : Phase) (place : Candidate) (c : RunCtx) (d : PlaceDetails)
    (hph : ph ≠ Phase.reviewScan)
    (hs : isPlaceSeen c.seen place.place_id = false)
    (hd : env.details place.place_id = some d) :
    ((processPlace env city ph place c).seen.lookup place.place_id =
      some ⟨city, d.name, true, c.clock⟩) ∧
    ((processPlace envErr "calgary" Phase.explicitText ⟨"P1"⟩
        (initCtx [] emptyStore)).seen.lookup "P1" =
      some ⟨"calgary", "Halal Grill", true, 0⟩) ∧
    (processPlace envErr "calgary" Phase.explicitText ⟨"P1"⟩
        (initCtx [] emptyStore)).store.restaurants = [] ∧
    (processPlace envErr "calgary" Phase.explicitText ⟨"P1"⟩
        (initCtx [] emptyStore)).store.metadata = [] ∧
    (∀ (env2 : Env) (city2 : String) (ph2 : Phase) (c2 : RunCtx),
      isPlaceSeen c2.seen place.place_id = true →
      processPlace env2 city2 ph2 place c2 =
        { c2 with
          trace := c2.trace ++ [Event.skip place.place_id]
          totalSkipped := c2.totalSkipped + 1 }) := by
  refine ⟨processPlace_ledger_entry env city ph place c d hph hs hd,
    by decide, by decide, by decide, ?_⟩
  intro env2 city2 ph2 c2 h
  simp [processPlace, h]

/-- Witness for C10 at candidate `P1` in the explicit-text phase. -/
theorem C10_witness :
    Phase.explicitText ≠ Phase.reviewScan ∧
    isPlaceSeen (initCtx [] emptyStore).seen "P1" = false ∧
    envOne.details "P1" = some d1 ∧
    ((processPlace envOne "calgary" Phase.explicitText ⟨"P1"⟩
        (initCtx [] emptyStore)).seen.lookup "P1" =
      some ⟨"calgary", d1.name, true, 0⟩) := by
  have h := C10_marked_halal_regardless_of_save envOne "calgary"
    Phase.explicitText ⟨"P1"⟩ (initCtx [] emptyStore) d1 (by decide)
    (by decide) rfl
  exact ⟨by decide, by decide, rfl, h.1⟩

/-- Witness for C3's amended theorem at a concrete ledger. -/
theorem C3_ledger_upsert_witness :
    ((([("P1", (⟨"calgary", "Kabob Corner", true, 0⟩ : SeenRow))] :
        SeenTable).map Prod.fst).Nodup) ∧
    ((markPlaceSeen [("P1", ⟨"calgary", "Kabob Corner", true, 0⟩)]
        "P1" "calgary" "Kabob Corner" false 7).map Prod.fst).Nodup ∧
    ((markPlaceSeen [("P1", ⟨"calgary", "Kabob Corner", true, 0⟩)]
        "P1" "calgary" "Kabob Corner" false 7).lookup "P1" =
      some ⟨"calgary", "Kabob Corner", true, 7⟩) := by
  have h := C3_ledger_upsert
    [("P1", ⟨"calgary", "Kabob Corner", true, 0⟩)]
    "P1" "calgary" "Kabob Corner" false 7
    ⟨"calgary", "Kabob Corner", true, 0⟩ (by decide)
  exact ⟨by decide, h.1, h.2.1 (by decide)⟩

/-! ## Claim C9 -/

/-- C9: no single external failure propagates past the phase loop.  A failed
text-search page yields an empty result list and ends the pagination chain; a
failed proximity search yields `[]`; a failed detail fetch leaves the run
state untouched apart from the call counter and the candidate is skipped; a
store failure makes `saveRestaurant` return `false` without and with the
partial first insert; and a query loop containing a candidate with a failed
fetch and a candidate with a failed store write still processes every other
candidate to completion. -/
theorem C9_error_containment :
    (∀ rest : List TextResp,
      collectPages (TextResp.fetchError :: rest) = ([], 1)) ∧
    (∀ (env : Env) (lat lng : ℚ) (kw : String) (radius : Nat) (c : RunCtx),
      env.nearby lat lng kw radius = none →
      (runNearby env lat lng kw radius c).1 = []) ∧
    (∀ (env : Env) (city : String) (ph : Phase) (place : Candidate)
        (c : RunCtx),
      isPlaceSeen c.seen place.place_id = false →
      env.details place.place_id = none →
      processPlace env city ph place c = detailStep place c) ∧
    (∀ (st : Store) (details : PlaceDetails) (city status channel : String)
        (conf : Nat),
      saveRestaurant st (some StoreErrAt.restaurantsInsert) details city
        status channel conf = (st, false)) ∧
    (∀ (st : Store) (details : PlaceDetails) (city status channel : String)
        (conf : Nat),
      (saveRestaurant st (some StoreErrAt.metadataInsert) details city
        status channel conf).2 = false) ∧
    ((runTextQuery envC9 "calgary" Phase.explicitText (initCtx [] emptyStore)
        "halal restaurant").trace =
      [Event.textCall "halal restaurant" "calgary",
       Event.detailCall "A1",
       Event.detailCall "B1",
       Event.saveCall "B1" "verified" "explicit" 95 false true,
       Event.markSeen "B1" true,
       Event.detailCall "C1",
       Event.saveCall "C1" "verified" "explicit" 95 false false,
       Event.markSeen "C1" true]) := by
  refine ⟨fun rest => rfl, ?_, ?_, fun st details city status channel conf =>
    rfl, ?_, by decide⟩
  · intro env lat lng kw radius c h
    simp [runNearby, h]
  · intro env city ph place c hs hd
    simp [processPlace, hs, hd]
  · intro st details city status channel conf
    simp only [saveRestaurant]
    split_ifs <;> simp_all

/-- Witness for C9's universally quantified fallback clauses at concrete
inputs. -/
theorem C9_witness :
    collectPages [TextResp.fetchError] = ([], 1) ∧
    (runNearby envC9 0 0 "halal" 4000 (initCtx [] emptyStore)).1 = [] ∧
    processPlace envC9 "calgary" Phase.explicitText ⟨"A1"⟩
        (initCtx [] emptyStore) = detailStep ⟨"A1"⟩ (initCtx [] emptyStore) ∧
    saveRestaurant emptyStore (some StoreErrAt.restaurantsInsert) d1
        "calgary" "verified" "explicit" 95 = (emptyStore, false) ∧
    (saveRestaurant emptyStore (some StoreErrAt.metadataInsert) d1 "calgary"
        "verified" "explicit" 95).2 = false := by
  have h := C9_error_containment
  exact ⟨h.1 [], h.2.1 envC9 0 0 "halal" 4000 (initCtx [] emptyStore) rfl,
    h.2.2.1 envC9 "calgary" Phase.explicitText ⟨"A1"⟩ (initCtx [] emptyStore)
      (by decide) rfl,
    h.2.2.2.1 emptyStore d1 "calgary" "verified" "explicit" 95,
    h.2.2.2.2.1 emptyStore d1 "calgary" "verified" "explicit" 95⟩

/-! ## Claim C6 -/

/-- C6: review-scan gate.  For an unseen candidate with a successful detail
fetch in the review-scan phase: if no review text of the payload contains
any keyword of {halal, zabiha, zabihah} case-insensitively (including a
payload with no reviews at all, since `checkReviewsForHalal [] = none`), no
restaurant record is written (the store is unchanged), no save call happens
(the trace gains only the detail call and the mark), and the candidate is
entered in the ledger with `is_halal = false`; if the scan finds a keyword,
the record is saved with status `unverified`, channel `review`, confidence
70, and the candidate is entered with `is_halal = true`. -/
theorem C6_review_scan_gate (env : Env) (city : String) (place : Candidate)
    (c : RunCtx) (d : PlaceDetails)
    (hs : isPlaceSeen c.seen place.place_id = false)
    (hd : env.details place.place_id = some d) :
    ((∀ r ∈ d.reviews.getD [], ∀ k ∈ halalKeywords,
        strIncludes (lowerStr (r.text.getD "")) k = false) →
      (processPlace env city Phase.reviewScan place c).store = c.store ∧
      (processPlace env city Phase.reviewScan place c).seen.lookup
          place.place_id = some ⟨city, d.name, false, c.clock⟩ ∧
      (processPlace env city Phase.reviewScan place c).trace =
        (c.trace ++ [Event.detailCall place.place_id]) ++
          [Event.markSeen place.place_id false]) ∧
    (∀ k, checkReviewsForHalal (d.reviews.getD []) = some k →
      (processPlace env city Phase.reviewScan place c).trace =
        (c.trace ++ [Event.detailCall place.place_id]) ++
          [Event.saveCall d.place_id "unverified" "review" 70
            (c.store.metadata.any (fun m => m.place_id == d.place_id))
            (saveRestaurant c.store (env.storeErr d.place_id) d city
              "unverified" "review" 70).2,
           Event.markSeen place.place_id true] ∧
      (processPlace env city Phase.reviewScan place c).seen.lookup
          place.place_id = some ⟨city, d.name, true, c.clock⟩) ∧
    (checkReviewsForHalal (d.reviews.getD []) = none ↔
      ∀ r ∈ d.reviews.getD [], ∀ k ∈ halalKeywords,
        strIncludes (lowerStr (r.text.getD "")) k = false) ∧
    checkReviewsForHalal ([] : List Review) = none := by
  refine ⟨?_, ?_, checkReviewsForHalal_eq_none_iff (d.reviews.getD []), rfl⟩
  · intro hno
    have hr : checkReviewsForHalal (d.reviews.getD []) = none :=
      (checkReviewsForHalal_eq_none_iff (d.reviews.getD [])).mpr hno
    simp only [processPlace, hs, Bool.false_eq_true, if_false, hd]
    simp only [hr]
    exact ⟨rfl, lookup_markPlaceSeen_fresh _ _ _ _ _ _ hs, rfl⟩
  · intro k hk
    simp only [processPlace, hs, Bool.false_eq_true, if_false, hd]
    simp only [hk]
    constructor
    · rw [saveAndMark_trace]
      rfl
    · rw [saveAndMark_seen]
      exact lookup_markPlaceSeen_fresh _ _ _ _ _ _ hs

/-- Witness for C6: candidate `P1` whose single review mentions "halal". -/
theorem C6_witness :
    isPlaceSeen (initCtx [] emptyStore).seen "P1" = false ∧
    envOne.details "P1" = some d1 ∧
    (checkReviewsForHalal (d1.reviews.getD []) = none ↔
      ∀ r ∈ d1.reviews.getD [], ∀ k ∈ halalKeywords,
        strIncludes (lowerStr (r.text.getD "")) k = false) ∧
    checkReviewsForHalal (d1.reviews.getD []) = some "halal" ∧
    ((processPlace envOne "calgary" Phase.reviewScan ⟨"P1"⟩
        (initCtx [] emptyStore)).seen.lookup "P1" =
      some ⟨"calgary", d1.name, true, 0⟩) := by
  have h := C6_review_scan_gate envOne "calgary" ⟨"P1"⟩
    (initCtx [] emptyStore) d1 (by decide) rfl
  exact ⟨by decide, rfl, h.2.2.1, by decide,
    (h.2.1 "halal" (by decide)).2⟩

/-! ## Claim C5 -/

/-- C5: per-phase status/confidence with strict ordering.  Every save call
of a run carries one of the five phase triples — explicit-text
(verified, 95), explicit-grid (verified, 90), always-cuisine (verified, 85),
likely-cuisine (unverified, 75), review-scan (unverified, 70) — and so does
every restaurant row of the resulting store when the initial store satisfied
the same; the confidences are strictly ordered
95 > 90 > 85 > 75 > 70 across the phases. -/
theorem C5_phase_status_confidence (env : Env) (cityName : String)
    (s0 : SeenTable) (st0 : Store) (ctx : RunCtx)
    (hc : EnvConsistent env)
    (h : hydrateCity env cityName s0 st0 = some ctx)
    (hrows0 : ∀ r ∈ st0.restaurants, rowPred r = true) :
    ctx.trace.all savePred = true ∧
    (∀ r ∈ ctx.store.restaurants, rowPred r = true) ∧
    (∀ ph : Phase, ph.status = "verified" ∨ ph.status = "unverified") ∧
    Phase.status Phase.explicitText = "verified" ∧
    Phase.confidence Phase.explicitText = 95 ∧
    Phase.status Phase.explicitGrid = "verified" ∧
    Phase.confidence Phase.explicitGrid = 90 ∧
    Phase.status Phase.alwaysCuisine = "verified" ∧
    Phase.confidence Phase.alwaysCuisine = 85 ∧
    Phase.status Phase.likelyCuisine = "unverified" ∧
    Phase.confidence Phase.likelyCuisine = 75 ∧
    Phase.status Phase.reviewScan = "unverified" ∧
    Phase.confidence Phase.reviewScan = 70 ∧
    Phase.confidence Phase.explicitText > Phase.confidence Phase.explicitGrid ∧
    Phase.confidence Phase.explicitGrid >
      Phase.confidence Phase.alwaysCuisine ∧
    Phase.confidence Phase.alwaysCuisine >
      Phase.confidence Phase.likelyCuisine ∧
    Phase.confidence Phase.likelyCuisine >
      Phase.confidence Phase.reviewScan := by
  have g := hydrate_good env hc cityName s0 st0 ctx h
  refine ⟨g.2.2.2.2.1 rfl, g.2.2.2.2.2 hrows0, fun ph => ?_, rfl, rfl, rfl,
    rfl, rfl, rfl, rfl, rfl, rfl, rfl, by decide, by decide, by decide,
    by decide⟩
  cases ph
  · exact Or.inl rfl
  · exact Or.inl rfl
  · exact Or.inl rfl
  · exact Or.inr rfl
  · exact Or.inr rfl

/-- Witness for C5 on the concrete one-candidate run. -/
theorem C5_witness :
    EnvConsistent envOne ∧
    hydrateCity envOne "calgary" [] emptyStore = some run1ctx ∧
    (∀ r ∈ emptyStore.restaurants, rowPred r = true) ∧
    run1ctx.trace.all savePred = true ∧
    (∀ r ∈ run1ctx.store.restaurants, rowPred r = true) := by
  have h := C5_phase_status_confidence envOne "calgary" [] emptyStore run1ctx
    envOne_consistent rfl (by simp [emptyStore])
  exact ⟨envOne_consistent, rfl, by simp [emptyStore], h.1, h.2.1⟩

/-! ## Claim C1 -/

/-- C1: re-run idempotence via the ledger.  (a) In every phase, a candidate
whose `place_id` is already in the ledger causes exactly one skip event and
a skip-count increment — no detail fetch, no save, no state change.  (b)
Running `hydrateCity` again, seeded with the first run's ledger and store
(the first run itself seeded with a store whose metadata ids were all in its
ledger), issues zero detail fetches and zero save calls for any id the
first run's ledger contains, and performs zero duplicate restaurant
inserts.  (c) An id in the ledger when a later phase starts receives no
detail fetch and no save call from that phase. -/
theorem C1_rerun_idempotence (env : Env) (cityName : String)
    (s0 : SeenTable) (st0 : Store) (ctx1 ctx2 : RunCtx) (ph ph2 : Phase)
    (place : Candidate) (c cq : RunCtx) (queries : List String)
    (pid pid2 : String)
    (hc : EnvConsistent env)
    (hinv0 : ∀ m ∈ st0.metadata, isPlaceSeen s0 m.place_id = true)
    (h1 : hydrateCity env cityName s0 st0 = some ctx1)
    (h2 : hydrateCity env cityName ctx1.seen ctx1.store = some ctx2)
    (hseenc : isPlaceSeen c.seen place.place_id = true)
    (hpid : isPlaceSeen ctx1.seen pid = true)
    (hpid2 : isPlaceSeen cq.seen pid2 = true) :
    (processPlace env cityName ph place c =
      { c with
        trace := c.trace ++ [Event.skip place.place_id]
        totalSkipped := c.totalSkipped + 1 }) ∧
    countEv (isDetailFor pid) ctx2.trace = 0 ∧
    countEv (isSaveFor pid) ctx2.trace = 0 ∧
    countEv isDupSave ctx2.trace = 0 ∧
    countEv (isDetailFor pid2)
        (runPhaseQueries env cityName ph2 queries cq).trace =
      countEv (isDetailFor pid2) cq.trace ∧
    countEv (isSaveFor pid2)
        (runPhaseQueries env cityName ph2 queries cq).trace =
      countEv (isSaveFor pid2) cq.trace := by
  have g1 := hydrate_good env hc cityName s0 st0 ctx1 h1
  have g2 := hydrate_good env hc cityName ctx1.seen ctx1.store ctx2 h2
  have hinv1 : StoreLedgerInv ctx1 := (g1.2.2.2.1 hinv0).1
  have gq := good_runPhaseQueries env hc cityName ph2 queries cq
  exact ⟨by simp [processPlace, hseenc],
    (g2.2.2.1 pid hpid).1,
    (g2.2.2.1 pid hpid).2,
    (g2.2.2.2.1 hinv1).2,
    (gq.2.2.1 pid2 hpid2).1,
    (gq.2.2.1 pid2 hpid2).2⟩

/-- Witness for C1 on the concrete one-candidate world: `P1` is discovered
and saved by the first run, and the second (seeded) run never fetches or
saves it again, with zero duplicate inserts. -/
theorem C1_witness :
    EnvConsistent envOne ∧
    (∀ m ∈ emptyStore.metadata, isPlaceSeen [] m.place_id = true) ∧
    hydrateCity envOne "calgary" [] emptyStore = some run1ctx ∧
    hydrateCity envOne "calgary" run1ctx.seen run1ctx.store = some run2ctx ∧
    isPlaceSeen run1ctx.seen "P1" = true ∧
    (processPlace envOne "calgary" Phase.explicitText ⟨"P1"⟩ run1ctx =
      { run1ctx with
        trace := run1ctx.trace ++ [Event.skip "P1"]
        totalSkipped := run1ctx.totalSkipped + 1 }) ∧
    countEv (isDetailFor "P1") run2ctx.trace = 0 ∧
    countEv (isSaveFor "P1") run2ctx.trace = 0 ∧
    countEv isDupSave run2ctx.trace = 0 ∧
    countEv (isDetailFor "P1")
        (runPhaseQueries envOne "calgary" Phase.reviewScan
          CHECK_REVIEWS_QUERIES run1ctx).trace =
      countEv (isDetailFor "P1") run1ctx.trace ∧
    countEv (isSaveFor "P1")
        (runPhaseQueries envOne "calgary" Phase.reviewScan
          CHECK_REVIEWS_QUERIES run1ctx).trace =
      countEv (isSaveFor "P1") run1ctx.trace := by
  have hseen : isPlaceSeen run1ctx.seen "P1" = true := by decide
  have h := C1_rerun_idempotence envOne "calgary" [] emptyStore run1ctx
    run2ctx Phase.explicitText Phase.reviewScan ⟨"P1"⟩ run1ctx run1ctx
    CHECK_REVIEWS_QUERIES "P1" "P1" envOne_consistent (by simp [emptyStore])
    rfl rfl hseen hseen hseen
  exact ⟨envOne_consistent, by simp [emptyStore], rfl, rfl, hseen, h.1,
    h.2.1, h.2.2.1, h.2.2.2.1, h.2.2.2.2.1, h.2.2.2.2.2⟩

end HalalCrave
